import Mathlib

/-!
Verification of the load-test driver (`pyApiAtac_mp.py`) and the mock SOAP
service (`pyMock_soap_service.py`): a shallow embedding of both programs'
data and control logic, followed by theorems about the embedded code.

External effects (wall-clock time, the network, process spawning) are passed
in as explicit inputs: a network call is an `Except String Nat` (either a
raised exception's message or the HTTP status of the response), and each
iteration of the dispatch loop observes a `TickEnv` describing whether the
`mp.Process(...).start()` call succeeds and how long the tick body took.
Python exceptions that the code does not catch are modelled with `Except`
errors; Python string formatting of integers is modelled by `natRepr`.
-/

/-! ### Driver configuration constants (`pyApiAtac_mp.py`, lines 17-28) -/

def BASE_PARAMETER_VALUE : Nat := 1000

def DURATION_SECONDS : Nat := 10

def TARGET_RATE : ℚ := 1000

def TARGET_INTERVAL : ℚ := 1 / TARGET_RATE

/-! ### Decimal rendering of integers (Python f-string interpolation)

`natRepr n` is the list of characters Python produces for `f"{n}"` on a
non-negative integer: most significant digit first, base 10. -/

def natRepr (n : Nat) : List Char :=
  if _h : n < 10 then [Nat.digitChar n]
  else natRepr (n / 10) ++ [Nat.digitChar (n % 10)]
  termination_by n
  decreasing_by
    have : n / 10 < n := Nat.div_lt_self (by omega) (by omega)
    omega

/-- Inverse of `Nat.digitChar` on decimal digits: used to show `natRepr`
is injective. -/
def digitVal (c : Char) : Nat :=
  if c = '0' then 0 else if c = '1' then 1 else if c = '2' then 2
  else if c = '3' then 3 else if c = '4' then 4 else if c = '5' then 5
  else if c = '6' then 6 else if c = '7' then 7 else if c = '8' then 8
  else if c = '9' then 9 else 10

def digitsVal (l : List Char) : Nat :=
  l.foldl (fun a c => 10 * a + digitVal c) 0

/-- `request_id_value` (line 50): the string `f"P{process_id}-R{request_count}"`,
modelled as its character list. -/
def request_id_value (pid seq : Nat) : List Char :=
  'P' :: (natRepr pid ++ ('-' :: 'R' :: natRepr seq))

/-! ### Transport outcome (`send_soap_request`, lines 64-97)

The whole I/O section sits inside one `try`/`except Exception`.  The
environment's contribution is abstracted as `Except String Nat`: `.ok s`
means the request went through and the response carried HTTP status `s`,
`.error e` means some step of connect/send/receive raised exception `e`
(connection failure, timeout, malformed response).  The `except` clause
turns any raised exception into the CRITICAL-ERROR outcome, so the function
is total. -/

inductive Status where
  | success : Status
  | httpError (code : Nat) : Status
  | transportError (reason : String) : Status
deriving DecidableEq

structure OutcomeRecord where
  requestIdentifier : List Char
  param : Nat
  status : Status
deriving DecidableEq

/-- Lines 85-97: `if 200 <= response.status < 300` prints SUCCESS, other
statuses print FAILED, and any exception caught by the `except` block prints
CRITICAL ERROR. -/
def classify (net : Except String Nat) : Status :=
  match net with
  | .error e => .transportError e
  | .ok status => if 200 ≤ status ∧ status < 300 then .success else .httpError status

/-- `send_soap_request` (lines 44-97): builds the request identifier from the
process id and the sequence number, the parameter from the base value, and
classifies the network outcome. -/
def send_soap_request (request_count : Nat) (pid : Nat)
    (net : Except String Nat) : OutcomeRecord :=
  { requestIdentifier := request_id_value pid request_count
    param := BASE_PARAMETER_VALUE + request_count
    status := classify net }

/-! ### Rate control (`run_load_test`, lines 123-129) -/

/-- Lines 126-129: `sleep_time = TARGET_INTERVAL - execution_time`; the loop
calls `time.sleep(sleep_time)` only when `sleep_time > 0`.  `some d` means a
sleep of duration `d` is performed; `none` means the loop proceeds to the
next tick immediately. -/
def tick_sleep (execution_time : ℚ) : Option ℚ :=
  let sleep_time := TARGET_INTERVAL - execution_time
  if 0 < sleep_time then some sleep_time else none

/-! ### The dispatch loop (`run_load_test`, lines 107-129)

One `TickEnv` per iteration the wall clock lets the `while` loop run:
`spawnOk` tells whether `mp.Process(...)`/`process.start()` succeeds on that
tick (`False` models a raised `OSError` on resource exhaustion), and
`executionTime` is the observed `time.time() - iteration_start_time`. -/

structure TickEnv where
  spawnOk : Bool
  executionTime : ℚ

structure LoopState where
  request_count : Nat
  spawned : List Nat
  sleeps : List ℚ
deriving DecidableEq

def initialState : LoopState := ⟨0, [], []⟩

/-- The `while` loop of `run_load_test` (lines 112-129).  Each iteration
increments `request_count`, spawns a process carrying that count (there is no
`try` around `mp.Process`/`process.start()`, so a spawn failure propagates as
an `Except.error` out of the loop), then performs the rate-control sleep. -/
def run_load_test_loop : List TickEnv → LoopState → Except String LoopState
  | [], s => .ok s
  | env :: rest, s =>
    let c := s.request_count + 1
    if env.spawnOk then
      run_load_test_loop rest
        { request_count := c
          spawned := s.spawned ++ [c]
          sleeps := s.sleeps ++ (tick_sleep env.executionTime).toList }
    else .error "spawn failure"

/-! ### Run report (`run_load_test`, lines 135-143)

`actual_rate = request_count / actual_duration` is computed with no guard;
Python raises `ZeroDivisionError` when `actual_duration` is zero. -/

def reportRate (request_count : Nat) (actual_duration : ℚ) : Except String ℚ :=
  if actual_duration = 0 then .error "ZeroDivisionError"
  else .ok (request_count / actual_duration)

/-! ## Mock SOAP service (`pyMock_soap_service.py`)

Service configuration constants (lines 22-31 and 54-55, 79). -/

def SERVICE_PATH : String := "/soap/endpoint"

def SOAP_METHOD_NAME : String := "ApiMethod"

def PARAM_TAG_NAME : String := "requestParameter"

def REQUEST_ID_TAG_NAME : String := "requestId"

def SOAP_NAMESPACE : String := "http://schemas.xmlsoap.org/soap/envelope/"

def TARGET_NAMESPACE : String := "http://tempuri.org/"

def CLIENT_TARGET_NAMESPACE : String := "http://ApiAtackDriverExampleProgram.com/"

/-! ### XML element model (`xml.etree.ElementTree`)

An element has a (namespace-qualified) tag, optional text, and a list of
direct children.  `ElementTree` writes a qualified tag as the namespace in
braces followed by the local name, which `qtag` reproduces. -/

inductive XmlElem where
  | mk (tag : String) (text : Option String) (children : List XmlElem)

def XmlElem.tag : XmlElem → String
  | .mk t _ _ => t

def XmlElem.text : XmlElem → Option String
  | .mk _ tx _ => tx

def XmlElem.children : XmlElem → List XmlElem
  | .mk _ _ cs => cs

/-- The f-string pattern `f"{{{NAMESPACE}}}{TAG}"` used at lines 82, 88, 96,
105, 114: namespace wrapped in literal braces, then the local tag name. -/
def qtag (ns t : String) : String := "\x7b" ++ ns ++ "\x7d" ++ t

/-- `Element.find(tag)` restricted to the plain-tag / fully-qualified-tag
forms the handler uses: the first direct child whose tag matches. -/
def XmlElem.find (e : XmlElem) (t : String) : Option XmlElem :=
  e.children.find? (fun c => c.tag == t)

/-- The repeated pattern at lines 88-91, 96-98 and 112-118: look the tag up
under the client's namespace first and, only if that finds nothing, look it
up with no namespace. -/
def twoTierFind (parent : XmlElem) (nsTag plainTag : String) : Option XmlElem :=
  match parent.find nsTag with
  | some e => some e
  | none => parent.find plainTag

/-! ### Handler responses -/

inductive HandlerResponse where
  | success (receivedParam : Option String) (timestamp : String)
      (receivedRequestId : String)
  | clientError (code : Nat) (message : String)

/-- The HTTP status code sent: `send_response(200)` on the success path
(line 156), `send_response(code)` in `_send_error` (line 168). -/
def HandlerResponse.code : HandlerResponse → Nat
  | .success _ _ _ => 200
  | .clientError c _ => c

/-- The fixed text `f"Bad Request: XML Parsing failed. Error: {e}"` of
line 140, before the exception message. -/
def XML_PARSE_FAIL_MSG : String := "Bad Request: XML Parsing failed. Error: "

def ERR_BODY_NOT_FOUND : String := "SOAP Body element not found."

def ERR_METHOD_NOT_FOUND : String :=
  "Method tag <" ++ SOAP_METHOD_NAME ++ "> not found with namespaces."

def ERR_PARAM_NOT_FOUND : String :=
  "Parameter tag <" ++ PARAM_TAG_NAME ++ "> not found."

/-- `SOAPHandler.do_POST` (lines 57-163).  The environment's contributions
are the parsed URL path, the result of `ET.fromstring` on the request body
(`.error e` models a parse exception with message `e`), and the formatted
server timestamp.  `ValueError`s raised at lines 85, 93, 100 are caught by
the single `except` at line 137 and turned into a 400 response whose body
carries the exception message. -/
def do_POST (path : String) (parse : Except String XmlElem)
    (current_time_stamp : String) : HandlerResponse :=
  if path ≠ SERVICE_PATH then .clientError 404 "Not Found"
  else
    match parse with
    | .error e => .clientError 400 (XML_PARSE_FAIL_MSG ++ e)
    | .ok root =>
      match root.find (qtag SOAP_NAMESPACE "Body") with
      | none => .clientError 400 (XML_PARSE_FAIL_MSG ++ ERR_BODY_NOT_FOUND)
      | some body_element =>
        match twoTierFind body_element
            (qtag CLIENT_TARGET_NAMESPACE SOAP_METHOD_NAME) SOAP_METHOD_NAME with
        | none => .clientError 400 (XML_PARSE_FAIL_MSG ++ ERR_METHOD_NOT_FOUND)
        | some method_element =>
          match twoTierFind method_element
              (qtag CLIENT_TARGET_NAMESPACE PARAM_TAG_NAME) PARAM_TAG_NAME with
          | none => .clientError 400 (XML_PARSE_FAIL_MSG ++ ERR_PARAM_NOT_FOUND)
          | some param_element =>
            let received_request_id :=
              match twoTierFind method_element
                  (qtag CLIENT_TARGET_NAMESPACE REQUEST_ID_TAG_NAME)
                  REQUEST_ID_TAG_NAME with
              | some id_e =>
                match id_e.text with
                | some t => t
                | none => "N/A"
              | none => "N/A"
            .success param_element.text current_time_stamp received_request_id

/-- Python `str(...)` as applied when formatting `received_param` into the
response template: `None` renders as the string `"None"`. -/
def pyStr : Option String → String
  | none => "None"
  | some s => s

/-- Template text up to and including the line indentation before the
`receivedParam` element (lines 35-41 of the template). -/
def respHead (method_name target_namespace : String) : String :=
  "<?xml version=\"1.0\" encoding=\"utf-8\"?>\n<soap:Envelope xmlns:soap=\"http://schemas.xmlsoap.org/soap/envelope/\" xmlns:xsi=\"http://www.w3.org/2001/XMLSchema-instance\" xmlns:xsd=\"http://www.w3.org/2001/XMLSchema\">\n    <soap:Body>\n        <" ++ method_name ++ "Response xmlns=\"" ++ target_namespace ++ "\">\n            <" ++ method_name ++ "Result>\n                <status>SUCCESS</status>\n                "

/-- Template text between the `receivedParam` and `received_request_id`
elements: the `timestamp` element line (line 42 of the template). -/
def respMid (timestamp : String) : String :=
  "\n                <timestamp>" ++ timestamp ++ "</timestamp>\n                "

/-- Template text after the `received_request_id` element: the closing tags
(lines 44-47 of the template). -/
def respTail (method_name : String) : String :=
  "\n            </" ++ method_name ++ "Result>\n        </" ++ method_name ++ "Response>\n    </soap:Body>\n</soap:Envelope>"

/-- `SOAP_RESPONSE_TEMPLATE.format(...)` (lines 35-47 and 147-153): the
response envelope with the method name, target namespace, received
parameter, timestamp and received request id substituted in. -/
def response_body (method_name target_namespace received_param timestamp
    received_request_id : String) : String :=
  respHead method_name target_namespace ++
    ("<receivedParam>" ++ received_param ++ "</receivedParam>") ++
    respMid timestamp ++
    ("<received_request_id>" ++ received_request_id ++ "</received_request_id>") ++
    respTail method_name

/-! ## Lemmas about decimal rendering -/

theorem digitVal_digitChar (d : Nat) (h : d < 10) :
    digitVal (Nat.digitChar d) = d := by
  interval_cases d <;> decide

theorem digitChar_ne_dash (d : Nat) (h : d < 10) : Nat.digitChar d ≠ '-' := by
  interval_cases d <;> decide

theorem natRepr_not_dash (n : Nat) : '-' ∉ natRepr n := by
  induction n using Nat.strong_induction_on with
  | _ n ih =>
    rw [natRepr]
    split
    · next h =>
      simp only [List.mem_singleton]
      exact fun hc => digitChar_ne_dash n h hc.symm
    · next h =>
      have hd : n / 10 < n := Nat.div_lt_self (by omega) (by omega)
      intro hmem
      rcases List.mem_append.mp hmem with h1 | h2
      · exact ih _ hd h1
      · rw [List.mem_singleton] at h2
        exact digitChar_ne_dash (n % 10) (by omega) h2.symm

theorem digitsVal_natRepr (n : Nat) : digitsVal (natRepr n) = n := by
  induction n using Nat.strong_induction_on with
  | _ n ih =>
    rw [natRepr]
    split
    · next h =>
      simp [digitsVal, List.foldl, digitVal_digitChar n h]
    · next h =>
      have hd : n / 10 < n := Nat.div_lt_self (by omega) (by omega)
      have hsplit : digitsVal (natRepr (n / 10) ++ [Nat.digitChar (n % 10)]) =
          10 * digitsVal (natRepr (n / 10)) + digitVal (Nat.digitChar (n % 10)) := by
        simp [digitsVal, List.foldl_append, List.foldl]
      rw [hsplit, ih _ hd, digitVal_digitChar _ (by omega)]
      omega

theorem natRepr_inj (a b : Nat) (h : natRepr a = natRepr b) : a = b := by
  have ha := digitsVal_natRepr a
  rw [h, digitsVal_natRepr] at ha
  omega

/-- Splitting a character list at the first dash: when neither left part
contains a dash, the decomposition `A ++ '-' :: X` is unique. -/
theorem append_dash_split (A : List Char) : ∀ (C X Y : List Char),
    '-' ∉ A → '-' ∉ C → A ++ '-' :: X = C ++ '-' :: Y → A = C ∧ X = Y := by
  induction A with
  | nil =>
    intro C X Y _ hC h
    cases C with
    | nil =>
      rw [List.nil_append, List.nil_append] at h
      injection h with _ h2
      exact ⟨rfl, h2⟩
    | cons c cs =>
      rw [List.nil_append, List.cons_append] at h
      injection h with h1 _
      rw [← h1] at hC
      exact absurd (List.mem_cons_self _ _) hC
  | cons a as ih =>
    intro C X Y hA hC h
    cases C with
    | nil =>
      rw [List.cons_append, List.nil_append] at h
      injection h with h1 _
      rw [h1] at hA
      exact absurd (List.mem_cons_self _ _) hA
    | cons c cs =>
      rw [List.cons_append, List.cons_append] at h
      injection h with h1 h2
      have hA' : '-' ∉ as := fun hx => hA (List.mem_cons_of_mem _ hx)
      have hC' : '-' ∉ cs := fun hx => hC (List.mem_cons_of_mem _ hx)
      obtain ⟨hl, hr⟩ := ih cs X Y hA' hC' h2
      exact ⟨by rw [h1, hl], hr⟩

/-- Two request identifiers built from different sequence numbers are
different strings, whatever the process ids are. -/
theorem request_id_value_inj_seq (p₁ s₁ p₂ s₂ : Nat)
    (h : request_id_value p₁ s₁ = request_id_value p₂ s₂) : s₁ = s₂ := by
  unfold request_id_value at h
  injection h with _ h2
  obtain ⟨_, hr⟩ := append_dash_split (natRepr p₁) (natRepr p₂)
    ('R' :: natRepr s₁) ('R' :: natRepr s₂)
    (natRepr_not_dash p₁) (natRepr_not_dash p₂) h2
  injection hr with _ hr2
  exact natRepr_inj _ _ hr2

/-! ## Lemmas about the dispatch loop -/

/-- A run whose every tick spawns successfully ends `.ok`, having passed the
sequence values `count+1, count+2, ...` to the spawned processes in order. -/
theorem run_load_test_loop_ok (envs : List TickEnv) (s : LoopState)
    (h : ∀ e ∈ envs, e.spawnOk = true) :
    ∃ sl, run_load_test_loop envs s =
      .ok ⟨s.request_count + envs.length,
           s.spawned ++ List.range' (s.request_count + 1) envs.length, sl⟩ := by
  induction envs generalizing s with
  | nil =>
    refine ⟨s.sleeps, ?_⟩
    cases s
    simp [run_load_test_loop]
  | cons env rest ih =>
    have henv : env.spawnOk = true := h env (List.mem_cons_self _ _)
    have hrest : ∀ e ∈ rest, e.spawnOk = true :=
      fun e he => h e (List.mem_cons_of_mem _ he)
    obtain ⟨sl, hsl⟩ := ih ⟨s.request_count + 1, s.spawned ++ [s.request_count + 1],
      s.sleeps ++ (tick_sleep env.executionTime).toList⟩ hrest
    refine ⟨sl, ?_⟩
    rw [run_load_test_loop, if_pos henv, hsl]
    congr 1
    simp [List.range'_succ, List.append_assoc]
    omega

theorem range'_getD (s n i : Nat) (h : i < n) :
    (List.range' s n).getD i 0 = s + i := by
  induction n generalizing s i with
  | zero => omega
  | succ n ih =>
    rw [List.range'_succ]
    cases i with
    | zero => rfl
    | succ i =>
      have hi := ih (s + 1) i (by omega)
      simp only [List.getD_cons_succ, hi]
      omega

/-! ## Claims about the driver -/

/-- C1: for every pair of distinct tasks issued during one run, the
request identifiers `"P<processId>-R<sequence>"` built by
`send_soap_request` are distinct, because the control loop passes each
spawned process a distinct `request_count`, whatever process ids the
operating system assigns. -/
theorem c1_request_identifiers_distinct (envs : List TickEnv)
    (pids : Nat → Nat) (s' : LoopState)
    (hok : ∀ e ∈ envs, e.spawnOk = true)
    (hrun : run_load_test_loop envs initialState = .ok s')
    (i j : Nat) (hi : i < s'.spawned.length) (hj : j < s'.spawned.length)
    (hij : i ≠ j) :
    request_id_value (pids i) (s'.spawned.getD i 0) ≠
      request_id_value (pids j) (s'.spawned.getD j 0) := by
  obtain ⟨sl, hsl⟩ := run_load_test_loop_ok envs initialState hok
  rw [hrun] at hsl
  injection hsl with hs'
  have hspawned : s'.spawned = List.range' 1 envs.length := by
    rw [hs']
    simp [initialState]
  have hlen : s'.spawned.length = envs.length := by
    rw [hspawned, List.length_range']
  rw [hspawned, range'_getD 1 envs.length i (hlen ▸ hi),
    range'_getD 1 envs.length j (hlen ▸ hj)]
  intro heq
  have := request_id_value_inj_seq _ _ _ _ heq
  omega

/-- C2: every invocation of `send_soap_request` produces exactly one
outcome: success for a 2xx status, an HTTP-error outcome for any other
status, and a transport-error outcome for any raised exception; no case
escapes unclassified. -/
theorem c2_send_soap_request_outcome (request_count pid : Nat)
    (net : Except String Nat) :
    (∀ s, net = .ok s → 200 ≤ s ∧ s < 300 →
      (send_soap_request request_count pid net).status = .success) ∧
    (∀ s, net = .ok s → ¬(200 ≤ s ∧ s < 300) →
      (send_soap_request request_count pid net).status = .httpError s) ∧
    (∀ e, net = .error e →
      (send_soap_request request_count pid net).status = .transportError e) := by
  refine ⟨fun s hs h => ?_, fun s hs h => ?_, fun e he => ?_⟩
  · subst hs; simp [send_soap_request, classify, h]
  · subst hs; simp [send_soap_request, classify, h]
  · subst he; rfl

/-- C3, as stated, is false on the code: `run_load_test` divides by
`actual_duration` with no guard, so a zero-length run raises
`ZeroDivisionError` instead of reporting an undefined/zero rate. -/
theorem c3_counterexample :
    reportRate 5 0 = Except.error "ZeroDivisionError" := rfl

/-- C3 (amended): the reporter computes
`actual_rate = request_count / actual_duration` unconditionally; it
succeeds exactly when `actual_duration` is nonzero, and a degenerate run of
zero duration raises a division-by-zero error. -/
theorem c3_report_rate (request_count : Nat) (actual_duration : ℚ) :
    (actual_duration ≠ 0 → reportRate request_count actual_duration =
      .ok (request_count / actual_duration)) ∧
    (actual_duration = 0 → reportRate request_count actual_duration =
      .error "ZeroDivisionError") := by
  constructor
  · intro h; rw [reportRate, if_neg h]
  · intro h; rw [reportRate, if_pos h]

/-- C4, as stated, is false on the code: there is no handler around
`mp.Process(...)`/`process.start()`, so one spawn failure ends the whole
run (the second tick below is never attempted) instead of being skipped. -/
theorem c4_counterexample :
    run_load_test_loop [⟨false, 1⟩, ⟨true, 1⟩] initialState =
      Except.error "spawn failure" := rfl

/-- C4 (amended): if creating a parallel execution unit fails on some tick,
the exception propagates out of the dispatch loop and aborts the run; the
remaining ticks are never attempted (the result does not depend on them). -/
theorem c4_spawn_failure_aborts (pre post : List TickEnv) (bad : TickEnv)
    (s : LoopState) (hpre : ∀ e ∈ pre, e.spawnOk = true)
    (hbad : bad.spawnOk = false) :
    run_load_test_loop (pre ++ bad :: post) s = .error "spawn failure" := by
  induction pre generalizing s with
  | nil =>
    rw [List.nil_append, run_load_test_loop]
    simp [hbad]
  | cons e es ih =>
    rw [List.cons_append, run_load_test_loop,
      if_pos (hpre e (List.mem_cons_self _ _))]
    exact ih _ (fun x hx => hpre x (List.mem_cons_of_mem _ hx))

/-- C5: on every tick, the loop sleeps exactly
`TARGET_INTERVAL - execution_time` when that amount is positive, and on
overrun (or exact fit) performs no sleep at all: a sleep, when it happens,
is always of a strictly positive duration. -/
theorem c5_tick_sleep_policy (execution_time : ℚ) :
    (∀ d, tick_sleep execution_time = some d →
      d = TARGET_INTERVAL - execution_time ∧ 0 < d) ∧
    (TARGET_INTERVAL - execution_time ≤ 0 → tick_sleep execution_time = none) := by
  have hdef : tick_sleep execution_time =
      if 0 < TARGET_INTERVAL - execution_time then
        some (TARGET_INTERVAL - execution_time)
      else none := rfl
  rw [hdef]
  constructor
  · intro d hd
    split at hd
    · next h => injection hd with hd'; exact ⟨hd'.symm, hd' ▸ h⟩
    · exact absurd hd (by simp)
  · intro h
    rw [if_neg (by linarith)]

theorem c1_witness :
    request_id_value 7 (((⟨2, [1, 2], []⟩ : LoopState).spawned).getD 0 0) ≠
      request_id_value 7 (((⟨2, [1, 2], []⟩ : LoopState).spawned).getD 1 0) :=
  c1_request_identifiers_distinct [⟨true, 1⟩, ⟨true, 1⟩] (fun _ => 7)
    ⟨2, [1, 2], []⟩ (by decide)
    (by norm_num [run_load_test_loop, tick_sleep, TARGET_INTERVAL, TARGET_RATE,
      initialState])
    0 1 (by decide) (by decide) (by decide)

theorem c2_witness :
    (send_soap_request 1 2 (Except.ok 200)).status = Status.success :=
  (c2_send_soap_request_outcome 1 2 (Except.ok 200)).1 200 rfl (by decide)

theorem c3_witness :
    reportRate 10 2 = Except.ok (((10 : Nat) : ℚ) / 2) :=
  (c3_report_rate 10 2).1 (by norm_num)

theorem c4_witness :
    run_load_test_loop ([⟨true, 1⟩] ++ ⟨false, 1⟩ :: [⟨true, 1⟩]) initialState =
      Except.error "spawn failure" :=
  c4_spawn_failure_aborts [⟨true, 1⟩] [⟨true, 1⟩] ⟨false, 1⟩ initialState
    (by decide) rfl

theorem c5_witness : tick_sleep 1 = none :=
  (c5_tick_sleep_policy 1).2 (by norm_num [TARGET_INTERVAL, TARGET_RATE])

/-! ## Lemmas about the two-tier lookup -/

theorem twoTierFind_found (parent : XmlElem) (nsTag plainTag : String)
    (e : XmlElem) (h : parent.find nsTag = some e) :
    twoTierFind parent nsTag plainTag = some e := by
  unfold twoTierFind
  rw [h]

theorem twoTierFind_fallback (parent : XmlElem) (nsTag plainTag : String)
    (h : parent.find nsTag = none) :
    twoTierFind parent nsTag plainTag = parent.find plainTag := by
  unfold twoTierFind
  rw [h]

/-! ## Claims about the mock service -/

/-- C6: a request whose SOAP Body, method element and parameter element are
all found but whose identifier element is absent still gets a 200 success
response, with the identifier field carrying the unknown-sentinel `"N/A"`. -/
theorem c6_missing_identifier_still_succeeds
    (root body_element method_element param_element : XmlElem) (ts : String)
    (hb : root.find (qtag SOAP_NAMESPACE "Body") = some body_element)
    (hm : twoTierFind body_element
      (qtag CLIENT_TARGET_NAMESPACE SOAP_METHOD_NAME) SOAP_METHOD_NAME =
      some method_element)
    (hp : twoTierFind method_element
      (qtag CLIENT_TARGET_NAMESPACE PARAM_TAG_NAME) PARAM_TAG_NAME =
      some param_element)
    (hid : twoTierFind method_element
      (qtag CLIENT_TARGET_NAMESPACE REQUEST_ID_TAG_NAME) REQUEST_ID_TAG_NAME =
      none) :
    do_POST SERVICE_PATH (.ok root) ts =
      .success param_element.text ts "N/A" ∧
    (do_POST SERVICE_PATH (.ok root) ts).code = 200 := by
  have h : do_POST SERVICE_PATH (.ok root) ts =
      .success param_element.text ts "N/A" := by
    simp [do_POST, hb, hm, hp, hid]
  exact ⟨h, by rw [h]; rfl⟩

/-- C7: a request whose body cannot be parsed, or whose SOAP Body, method
element or parameter element is missing, gets a 400 client-error response
carrying a diagnostic message; the handler returns a response in every such
case instead of crashing. -/
theorem c7_extraction_failure_client_error (e ts : String) (root : XmlElem) :
    (do_POST SERVICE_PATH (.error e) ts =
      .clientError 400 (XML_PARSE_FAIL_MSG ++ e)) ∧
    (root.find (qtag SOAP_NAMESPACE "Body") = none →
      do_POST SERVICE_PATH (.ok root) ts =
        .clientError 400 (XML_PARSE_FAIL_MSG ++ ERR_BODY_NOT_FOUND)) ∧
    (∀ body_element,
      root.find (qtag SOAP_NAMESPACE "Body") = some body_element →
      twoTierFind body_element
        (qtag CLIENT_TARGET_NAMESPACE SOAP_METHOD_NAME) SOAP_METHOD_NAME =
        none →
      do_POST SERVICE_PATH (.ok root) ts =
        .clientError 400 (XML_PARSE_FAIL_MSG ++ ERR_METHOD_NOT_FOUND)) ∧
    (∀ body_element method_element,
      root.find (qtag SOAP_NAMESPACE "Body") = some body_element →
      twoTierFind body_element
        (qtag CLIENT_TARGET_NAMESPACE SOAP_METHOD_NAME) SOAP_METHOD_NAME =
        some method_element →
      twoTierFind method_element
        (qtag CLIENT_TARGET_NAMESPACE PARAM_TAG_NAME) PARAM_TAG_NAME = none →
      do_POST SERVICE_PATH (.ok root) ts =
        .clientError 400 (XML_PARSE_FAIL_MSG ++ ERR_PARAM_NOT_FOUND)) := by
  refine ⟨?_, fun hb => ?_, fun be hb hm => ?_, fun be me hb hm hp => ?_⟩
  · simp [do_POST]
  · simp [do_POST, hb]
  · simp [do_POST, hb, hm]
  · simp [do_POST, hb, hm, hp]

/-- C8: a well-formed request carrying parameter value `v` and identifier
`idv` gets a success response echoing `v` as the received parameter and
`idv` as the received request id, and the rendered response body carries
them inside the `receivedParam` and `received_request_id` elements. -/
theorem c8_roundtrip_echo
    (root body_element method_element param_element id_element : XmlElem)
    (v idv ts : String)
    (hb : root.find (qtag SOAP_NAMESPACE "Body") = some body_element)
    (hm : twoTierFind body_element
      (qtag CLIENT_TARGET_NAMESPACE SOAP_METHOD_NAME) SOAP_METHOD_NAME =
      some method_element)
    (hp : twoTierFind method_element
      (qtag CLIENT_TARGET_NAMESPACE PARAM_TAG_NAME) PARAM_TAG_NAME =
      some param_element)
    (hptext : param_element.text = some v)
    (hid : twoTierFind method_element
      (qtag CLIENT_TARGET_NAMESPACE REQUEST_ID_TAG_NAME) REQUEST_ID_TAG_NAME =
      some id_element)
    (hidtext : id_element.text = some idv) :
    do_POST SERVICE_PATH (.ok root) ts = .success (some v) ts idv ∧
    response_body SOAP_METHOD_NAME TARGET_NAMESPACE (pyStr (some v)) ts idv =
      respHead SOAP_METHOD_NAME TARGET_NAMESPACE ++
        ("<receivedParam>" ++ v ++ "</receivedParam>") ++
        (respMid ts ++
          ("<received_request_id>" ++ idv ++ "</received_request_id>") ++
          respTail SOAP_METHOD_NAME) := by
  constructor
  · simp [do_POST, hb, hm, hp, hid, hptext, hidtext]
  · simp [response_body, pyStr, String.append_assoc]

/-- C9: each of the method, parameter and identifier extractions is an
ordered two-tier lookup: the namespaced search runs first, the
unnamespaced search runs only when the namespaced one finds nothing, and a
namespaced match is never overridden. -/
theorem c9_two_tier_lookup (parent : XmlElem) :
    ((∀ e, parent.find (qtag CLIENT_TARGET_NAMESPACE SOAP_METHOD_NAME) =
        some e →
      twoTierFind parent (qtag CLIENT_TARGET_NAMESPACE SOAP_METHOD_NAME)
        SOAP_METHOD_NAME = some e) ∧
     (parent.find (qtag CLIENT_TARGET_NAMESPACE SOAP_METHOD_NAME) = none →
      twoTierFind parent (qtag CLIENT_TARGET_NAMESPACE SOAP_METHOD_NAME)
        SOAP_METHOD_NAME = parent.find SOAP_METHOD_NAME)) ∧
    ((∀ e, parent.find (qtag CLIENT_TARGET_NAMESPACE PARAM_TAG_NAME) =
        some e →
      twoTierFind parent (qtag CLIENT_TARGET_NAMESPACE PARAM_TAG_NAME)
        PARAM_TAG_NAME = some e) ∧
     (parent.find (qtag CLIENT_TARGET_NAMESPACE PARAM_TAG_NAME) = none →
      twoTierFind parent (qtag CLIENT_TARGET_NAMESPACE PARAM_TAG_NAME)
        PARAM_TAG_NAME = parent.find PARAM_TAG_NAME)) ∧
    ((∀ e, parent.find (qtag CLIENT_TARGET_NAMESPACE REQUEST_ID_TAG_NAME) =
        some e →
      twoTierFind parent (qtag CLIENT_TARGET_NAMESPACE REQUEST_ID_TAG_NAME)
        REQUEST_ID_TAG_NAME = some e) ∧
     (parent.find (qtag CLIENT_TARGET_NAMESPACE REQUEST_ID_TAG_NAME) = none →
      twoTierFind parent (qtag CLIENT_TARGET_NAMESPACE REQUEST_ID_TAG_NAME)
        REQUEST_ID_TAG_NAME = parent.find REQUEST_ID_TAG_NAME)) :=
  ⟨⟨fun e h => twoTierFind_found parent _ _ e h,
    fun h => twoTierFind_fallback parent _ _ h⟩,
   ⟨fun e h => twoTierFind_found parent _ _ e h,
    fun h => twoTierFind_fallback parent _ _ h⟩,
   ⟨fun e h => twoTierFind_found parent _ _ e h,
    fun h => twoTierFind_fallback parent _ _ h⟩⟩

/-- C10: a POST whose URL path is not the configured service path gets a
404 Not Found response, and the response does not depend on the request
body at all: no extraction or echo is attempted. -/
theorem c10_wrong_path_not_found (path : String)
    (parse₁ parse₂ : Except String XmlElem) (t₁ t₂ : String)
    (h : path ≠ SERVICE_PATH) :
    do_POST path parse₁ t₁ = .clientError 404 "Not Found" ∧
    do_POST path parse₁ t₁ = do_POST path parse₂ t₂ := by
  have k : ∀ (p : Except String XmlElem) (t : String),
      do_POST path p t = .clientError 404 "Not Found" := by
    intro p t
    unfold do_POST
    rw [if_pos h]
  exact ⟨k parse₁ t₁, by rw [k parse₁ t₁, k parse₂ t₂]⟩

theorem c6_witness :
    do_POST SERVICE_PATH
      (.ok (XmlElem.mk "Envelope" none
        [XmlElem.mk (qtag SOAP_NAMESPACE "Body") none
          [XmlElem.mk (qtag CLIENT_TARGET_NAMESPACE SOAP_METHOD_NAME) none
            [XmlElem.mk (qtag CLIENT_TARGET_NAMESPACE PARAM_TAG_NAME)
              (some "1001") []]]])) "2025-11-30 12:00:00.000" =
      HandlerResponse.success (some "1001") "2025-11-30 12:00:00.000" "N/A" :=
  (c6_missing_identifier_still_succeeds
    (XmlElem.mk "Envelope" none
      [XmlElem.mk (qtag SOAP_NAMESPACE "Body") none
        [XmlElem.mk (qtag CLIENT_TARGET_NAMESPACE SOAP_METHOD_NAME) none
          [XmlElem.mk (qtag CLIENT_TARGET_NAMESPACE PARAM_TAG_NAME)
            (some "1001") []]]])
    (XmlElem.mk (qtag SOAP_NAMESPACE "Body") none
      [XmlElem.mk (qtag CLIENT_TARGET_NAMESPACE SOAP_METHOD_NAME) none
        [XmlElem.mk (qtag CLIENT_TARGET_NAMESPACE PARAM_TAG_NAME)
          (some "1001") []]])
    (XmlElem.mk (qtag CLIENT_TARGET_NAMESPACE SOAP_METHOD_NAME) none
      [XmlElem.mk (qtag CLIENT_TARGET_NAMESPACE PARAM_TAG_NAME)
        (some "1001") []])
    (XmlElem.mk (qtag CLIENT_TARGET_NAMESPACE PARAM_TAG_NAME) (some "1001") [])
    "2025-11-30 12:00:00.000" rfl rfl rfl rfl).1

theorem c7_witness :
    do_POST SERVICE_PATH (.error "syntax error: line 1, column 0") "t" =
      HandlerResponse.clientError 400
        (XML_PARSE_FAIL_MSG ++ "syntax error: line 1, column 0") ∧
    do_POST SERVICE_PATH (.ok (XmlElem.mk "Envelope" none [])) "t" =
      HandlerResponse.clientError 400
        (XML_PARSE_FAIL_MSG ++ ERR_BODY_NOT_FOUND) :=
  ⟨(c7_extraction_failure_client_error "syntax error: line 1, column 0" "t"
      (XmlElem.mk "Envelope" none [])).1,
   (c7_extraction_failure_client_error "syntax error: line 1, column 0" "t"
      (XmlElem.mk "Envelope" none [])).2.1 rfl⟩

theorem c8_witness :
    do_POST SERVICE_PATH
      (.ok (XmlElem.mk "Envelope" none
        [XmlElem.mk (qtag SOAP_NAMESPACE "Body") none
          [XmlElem.mk (qtag CLIENT_TARGET_NAMESPACE SOAP_METHOD_NAME) none
            [XmlElem.mk (qtag CLIENT_TARGET_NAMESPACE PARAM_TAG_NAME)
              (some "1001") [],
             XmlElem.mk (qtag CLIENT_TARGET_NAMESPACE REQUEST_ID_TAG_NAME)
              (some "P7-R1") []]]])) "ts0" =
      HandlerResponse.success (some "1001") "ts0" "P7-R1" :=
  (c8_roundtrip_echo
    (XmlElem.mk "Envelope" none
      [XmlElem.mk (qtag SOAP_NAMESPACE "Body") none
        [XmlElem.mk (qtag CLIENT_TARGET_NAMESPACE SOAP_METHOD_NAME) none
          [XmlElem.mk (qtag CLIENT_TARGET_NAMESPACE PARAM_TAG_NAME)
            (some "1001") [],
           XmlElem.mk (qtag CLIENT_TARGET_NAMESPACE REQUEST_ID_TAG_NAME)
            (some "P7-R1") []]]])
    (XmlElem.mk (qtag SOAP_NAMESPACE "Body") none
      [XmlElem.mk (qtag CLIENT_TARGET_NAMESPACE SOAP_METHOD_NAME) none
        [XmlElem.mk (qtag CLIENT_TARGET_NAMESPACE PARAM_TAG_NAME)
          (some "1001") [],
         XmlElem.mk (qtag CLIENT_TARGET_NAMESPACE REQUEST_ID_TAG_NAME)
          (some "P7-R1") []]])
    (XmlElem.mk (qtag CLIENT_TARGET_NAMESPACE SOAP_METHOD_NAME) none
      [XmlElem.mk (qtag CLIENT_TARGET_NAMESPACE PARAM_TAG_NAME)
        (some "1001") [],
       XmlElem.mk (qtag CLIENT_TARGET_NAMESPACE REQUEST_ID_TAG_NAME)
        (some "P7-R1") []])
    (XmlElem.mk (qtag CLIENT_TARGET_NAMESPACE PARAM_TAG_NAME) (some "1001") [])
    (XmlElem.mk (qtag CLIENT_TARGET_NAMESPACE REQUEST_ID_TAG_NAME)
      (some "P7-R1") [])
    "1001" "P7-R1" "ts0" rfl rfl rfl rfl rfl rfl).1

theorem c9_witness :
    twoTierFind
      (XmlElem.mk "Body" none
        [XmlElem.mk SOAP_METHOD_NAME (some "plain") [],
         XmlElem.mk (qtag CLIENT_TARGET_NAMESPACE SOAP_METHOD_NAME)
           (some "namespaced") []])
      (qtag CLIENT_TARGET_NAMESPACE SOAP_METHOD_NAME) SOAP_METHOD_NAME =
      some (XmlElem.mk (qtag CLIENT_TARGET_NAMESPACE SOAP_METHOD_NAME)
        (some "namespaced") []) :=
  (c9_two_tier_lookup
    (XmlElem.mk "Body" none
      [XmlElem.mk SOAP_METHOD_NAME (some "plain") [],
       XmlElem.mk (qtag CLIENT_TARGET_NAMESPACE SOAP_METHOD_NAME)
         (some "namespaced") []])).1.1
    (XmlElem.mk (qtag CLIENT_TARGET_NAMESPACE SOAP_METHOD_NAME)
      (some "namespaced") []) rfl

theorem c10_witness :
    do_POST "/other/path" (.error "x") "t1" =
      HandlerResponse.clientError 404 "Not Found" ∧
    do_POST "/other/path" (.error "x") "t1" =
      do_POST "/other/path" (.ok (XmlElem.mk "Envelope" none [])) "t2" :=
  c10_wrong_path_not_found "/other/path" (.error "x")
    (.ok (XmlElem.mk "Envelope" none [])) "t1" "t2" (by decide)
